import Mathlib

/-!
# Verification of the Cleanflight HoTT telemetry engine

A shallow embedding of `telemetry_hott.c` (request detection, frame
composition, checksum accumulation and the byte-at-a-time transmitter),
together with theorems settling the specification's claims about it.

Machine integers are modelled as `Nat` (unsigned) and `Int` (signed) with
explicit `% 2^w` reductions where the C code narrows or overflows.  C's
truncating division and remainder on signed operands are `Int.tdiv` and
`Int.tmod`; an arithmetic right shift of a (possibly negative) `int32_t`
is `Int.fdiv _ 256`; conversion of a signed value to `uint8_t`/`uint16_t`
is `Int.emod` by the width (always non-negative).
-/

/-- Conversion of a signed C value to `uint8_t`: reduction mod 256
(`Int.emod` is non-negative for a positive modulus, matching C's
conversion-to-unsigned semantics). -/
def toU8 (x : Int) : Nat := (x % 256).toNat

/-- Conversion of a signed C value to `uint16_t`: reduction mod 65536. -/
def toU16 (x : Int) : Nat := (x % 65536).toNat

/-- `GPS_FIX_CHAR_NONE = '-'` -/
def GPS_FIX_CHAR_NONE : Nat := 45
/-- `GPS_FIX_CHAR_2D = '2'` -/
def GPS_FIX_CHAR_2D : Nat := 50
/-- `GPS_FIX_CHAR_3D = '3'` -/
def GPS_FIX_CHAR_3D : Nat := 51
/-- `GPS_FIX_CHAR_DGPS = 'D'` -/
def GPS_FIX_CHAR_DGPS : Nat := 68

/-- Modelled from the spec: `HOTT_GPS_ALTITUDE_OFFSET` is defined in
`telemetry/hott.h`, which is not under `src/`; the spec only calls it a
"fixed_offset" added to the altitude field.  Its concrete value does not
affect any claim. -/
def HOTT_GPS_ALTITUDE_OFFSET : Nat := 500

/-- Modelled from the spec: the sensor-class and sensor-text header ids are
defined in `telemetry/hott.h`, which is not under `src/`; the spec only says
the frame header carries a sensor-class id and a sensor-text id.  Their
concrete values do not affect any claim. -/
def HOTT_TELEMETRY_GPS_SENSOR_ID : Nat := 0x8A
def HOTT_GPS_SENSOR_TEXT_ID : Nat := 0xA0
def HOTT_TELEMETRY_EAM_SENSOR_ID : Nat := 0x8E
def HOTT_EAM_SENSOR_TEXT_ID : Nat := 0xE0

/-- The fields of `HOTT_GPS_MSG_t` that `telemetry_hott.c` reads or writes.
Every field is a `uint8_t`, modelled as a `Nat` kept below 256 by the
operations. -/
structure HOTT_GPS_MSG where
  start_byte : Nat
  gps_sensor_id : Nat
  sensor_id : Nat
  gps_satelites : Nat
  gps_fix_char : Nat
  pos_NS : Nat
  pos_NS_dm_L : Nat
  pos_NS_dm_H : Nat
  pos_NS_sec_L : Nat
  pos_NS_sec_H : Nat
  pos_EW : Nat
  pos_EW_dm_L : Nat
  pos_EW_dm_H : Nat
  pos_EW_sec_L : Nat
  pos_EW_sec_H : Nat
  gps_speed_L : Nat
  gps_speed_H : Nat
  home_distance_L : Nat
  home_distance_H : Nat
  altitude_L : Nat
  altitude_H : Nat
  home_direction : Nat
  stop_byte : Nat
deriving DecidableEq

/-- The fields of `HOTT_EAM_MSG_t` that `telemetry_hott.c` reads or writes. -/
structure HOTT_EAM_MSG where
  start_byte : Nat
  eam_sensor_id : Nat
  sensor_id : Nat
  warning_beeps : Nat
  alarm_invers1 : Nat
  main_voltage_L : Nat
  main_voltage_H : Nat
  batt1_voltage_L : Nat
  batt1_voltage_H : Nat
  stop_byte : Nat
deriving DecidableEq

/-- `initialiseGPSMessage`: zero the message, then set the protocol header
and trailer bytes. -/
def initialiseGPSMessage : HOTT_GPS_MSG :=
  { start_byte := 0x7C
    gps_sensor_id := HOTT_TELEMETRY_GPS_SENSOR_ID
    sensor_id := HOTT_GPS_SENSOR_TEXT_ID
    gps_satelites := 0, gps_fix_char := 0
    pos_NS := 0, pos_NS_dm_L := 0, pos_NS_dm_H := 0
    pos_NS_sec_L := 0, pos_NS_sec_H := 0
    pos_EW := 0, pos_EW_dm_L := 0, pos_EW_dm_H := 0
    pos_EW_sec_L := 0, pos_EW_sec_H := 0
    gps_speed_L := 0, gps_speed_H := 0
    home_distance_L := 0, home_distance_H := 0
    altitude_L := 0, altitude_H := 0
    home_direction := 0
    stop_byte := 0x7D }

/-- `initialiseEAMMessage`: zero the message, then set the protocol header
and trailer bytes. -/
def initialiseEAMMessage : HOTT_EAM_MSG :=
  { start_byte := 0x7C
    eam_sensor_id := HOTT_TELEMETRY_EAM_SENSOR_ID
    sensor_id := HOTT_EAM_SENSOR_TEXT_ID
    warning_beeps := 0, alarm_invers1 := 0
    main_voltage_L := 0, main_voltage_H := 0
    batt1_voltage_L := 0, batt1_voltage_H := 0
    stop_byte := 0x7D }

/-- The read-only vehicle telemetry the codec consumes (globals
`f.GPS_FIX`, `GPS_numSat`, `GPS_coord`, `GPS_speed`, `GPS_distanceToHome`,
`GPS_altitude`, `GPS_directionToHome`, declared in `io/gps.h`). -/
structure VehicleSnapshot where
  /-- `f.GPS_FIX` -/
  gpsFix : Bool
  /-- `GPS_numSat : uint8_t` -/
  numSat : Nat
  /-- `GPS_coord[LAT] : int32_t`, degrees scaled by 1e7 -/
  coordLat : Int
  /-- `GPS_coord[LON] : int32_t`, degrees scaled by 1e7 -/
  coordLon : Int
  /-- `GPS_speed : uint16_t`, 0.1 m/s units -/
  speed : Nat
  /-- `GPS_distanceToHome : uint16_t`, meters -/
  distanceToHome : Nat
  /-- `GPS_altitude : uint16_t`, 0.1 m units -/
  altitude : Nat
  /-- `GPS_directionToHome : int16_t`, degrees -/
  directionToHome : Int
deriving DecidableEq

/-- `addGPSCoordinates`, translated statement by statement.  C types:
`deg : int16_t`, `sec : int32_t`, `min : int8_t`, `degMin : uint16_t`;
all divisions/remainders are C's truncating `/` and `%` on signed ints
(`Int.tdiv` / `Int.tmod`), `degMin >> 8` is a `uint16_t` shift (`/ 256`),
`sec >> 8` is an arithmetic shift of an `int32_t` (`Int.fdiv _ 256`), and
each store into a `uint8_t` field reduces mod 256. -/
def addGPSCoordinates (m : HOTT_GPS_MSG) (latitude longitude : Int) : HOTT_GPS_MSG :=
  let deg := latitude.tdiv 10000000
  let sec := (latitude - deg * 10000000) * 6
  let mn := sec.tdiv 1000000
  let sec2 := (sec.tmod 1000000).tdiv 100
  let degMin := toU16 (deg * 100 + mn)
  let deg' := longitude.tdiv 10000000
  let sec' := (longitude - deg' * 10000000) * 6
  let mn' := sec'.tdiv 1000000
  let sec2' := (sec'.tmod 1000000).tdiv 100
  let degMin' := toU16 (deg' * 100 + mn')
  { m with
    pos_NS := if latitude < 0 then 1 else 0
    pos_NS_dm_L := degMin % 256
    pos_NS_dm_H := degMin / 256 % 256
    pos_NS_sec_L := toU8 sec2
    pos_NS_sec_H := toU8 (sec2.fdiv 256)
    pos_EW := if longitude < 0 then 1 else 0
    pos_EW_dm_L := degMin' % 256
    pos_EW_dm_H := degMin' / 256 % 256
    pos_EW_sec_L := toU8 sec2'
    pos_EW_sec_H := toU8 (sec2'.fdiv 256) }

/-- The degree-minute word of the specification's coordinate formula:
`deg = v / 10^7`, `sec = (v - deg*10^7) * 6`, `min = sec / 10^6`,
`degMin = deg*100 + min`, packed as a 16-bit value. -/
def specCoordDegMin (v : Int) : Nat :=
  let deg := v.tdiv 10000000
  let sec := (v - deg * 10000000) * 6
  let mn := sec.tdiv 1000000
  toU16 (deg * 100 + mn)

/-- The seconds-times-100 value of the specification's coordinate formula:
`sec = ((v - deg*10^7) * 6 mod 10^6) / 100`. -/
def specCoordSec100 (v : Int) : Int :=
  let deg := v.tdiv 10000000
  let sec := (v - deg * 10000000) * 6
  (sec.tmod 1000000).tdiv 100

/-- `hottPrepareGPSResponse`, translated statement by statement from the
source; the global telemetry reads become fields of `VehicleSnapshot`. -/
def hottPrepareGPSResponse (v : VehicleSnapshot) (m : HOTT_GPS_MSG) : HOTT_GPS_MSG :=
  let m1 := { m with gps_satelites := v.numSat % 256 }
  if !v.gpsFix then
    { m1 with gps_fix_char := GPS_FIX_CHAR_NONE }
  else
    let m2 :=
      if v.numSat ≥ 5 then { m1 with gps_fix_char := GPS_FIX_CHAR_3D }
      else { m1 with gps_fix_char := GPS_FIX_CHAR_2D }
    let m3 := addGPSCoordinates m2 v.coordLat v.coordLon
    let speed := ((v.speed / 100) * 36) % 65536
    let m4 := { m3 with gps_speed_L := speed % 256, gps_speed_H := speed / 256 % 256 }
    let m5 := { m4 with
                home_distance_L := v.distanceToHome % 256
                home_distance_H := v.distanceToHome / 256 % 256 }
    let hottGpsAltitude := ((v.altitude / 10) + HOTT_GPS_ALTITUDE_OFFSET) % 65536
    let m6 := { m5 with
                altitude_L := hottGpsAltitude % 256
                altitude_H := hottGpsAltitude / 256 % 256 }
    { m6 with home_direction := toU8 v.directionToHome }

/-- `hottEAMUpdateBattery`: both voltage fields mirror the single measured
battery voltage `vbat`. -/
def hottEAMUpdateBattery (vbat : Nat) (m : HOTT_EAM_MSG) : HOTT_EAM_MSG :=
  { m with
    main_voltage_L := vbat % 256
    main_voltage_H := vbat / 256 % 256
    batt1_voltage_L := vbat % 256
    batt1_voltage_H := vbat / 256 % 256 }

/-- `hottPrepareEAMResponse`: clear the alarm bitfields, then update the
battery voltages. -/
def hottPrepareEAMResponse (vbat : Nat) (m : HOTT_EAM_MSG) : HOTT_EAM_MSG :=
  hottEAMUpdateBattery vbat { m with warning_beeps := 0, alarm_invers1 := 0 }

/-! ## The telemetry session state machine

The module-level statics of `telemetry_hott.c` together with the shared
serial port become one explicit state record.  The serial port is modelled
by its mode, the list of received bytes waiting to be read (`rxBuffer`)
and the list of bytes written so far (`txWritten`).  The two response
frames live in the state as their in-memory byte images (`gpsMsgBytes`,
`eamMsgBytes`); `hottMsg`, a `uint8_t*` into one of those two static
buffers (or `NULL`), becomes `Option (MsgKind × Nat)` — which buffer and
the current byte offset. -/

/-- `MODE_RX` / `MODE_TX` of the serial driver. -/
inductive PortMode where
  | MODE_RX
  | MODE_TX
deriving DecidableEq

/-- Which of the two static response frames `hottMsg` points into. -/
inductive MsgKind where
  | gps
  | eam
deriving DecidableEq

/-- `HOTT_MESSAGE_PREPARATION_FREQUENCY_5_HZ = (1000 * 1000) / 5` -/
def HOTT_MESSAGE_PREPARATION_FREQUENCY_5_HZ : Nat := (1000 * 1000) / 5
/-- `HOTT_RX_SCHEDULE = 4000` (microseconds) -/
def HOTT_RX_SCHEDULE : Nat := 4000
/-- `HOTT_TX_DELAY_US = 3000` (microseconds) -/
def HOTT_TX_DELAY_US : Nat := 3000
/-- `HOTT_CRC_SIZE = sizeof(hottMsgCrc) = 1` -/
def HOTT_CRC_SIZE : Nat := 1

/-- Modelled from the spec: `HOTT_BINARY_MODE_REQUEST_ID` is defined in
`telemetry/hott.h`, which is not under `src/`; the spec only calls it "the
protocol's binary-mode constant".  Its concrete value does not affect any
claim — requests are compared against it symbolically. -/
def HOTT_BINARY_MODE_REQUEST_ID : Nat := 0x80

/-- `uint32_t` subtraction `a - b` with wraparound, as C computes
`currentMicros - lastHoTTRequestCheckAt` etc. on 32-bit unsigned values. -/
def wrapSub (a b : Nat) : Nat := (a % 4294967296 + (4294967296 - b % 4294967296)) % 4294967296

/-- The module statics of `telemetry_hott.c` plus the shared serial port. -/
structure HTState where
  /-- static `lastHoTTRequestCheckAt` (microseconds, `uint32_t`) -/
  lastHoTTRequestCheckAt : Nat
  /-- static `lastMessagesPreparedAt` (microseconds, `uint32_t`) -/
  lastMessagesPreparedAt : Nat
  /-- static `hottIsSending` -/
  hottIsSending : Bool
  /-- static `hottMsg : uint8_t*` — `none` for `NULL`, otherwise the
  buffer it points into and the byte offset from the buffer start -/
  hottMsg : Option (MsgKind × Nat)
  /-- static `hottMsgRemainingBytesToSendCount : uint8_t` -/
  hottMsgRemainingBytesToSendCount : Nat
  /-- static `hottMsgCrc : uint8_t` -/
  hottMsgCrc : Nat
  /-- static `lookingForRequest` inside `hottCheckSerialData`
  (`true` initially: the request window is not armed) -/
  lookingForRequest : Bool
  /-- static `serialTimer` inside `handleHoTTTelemetry` -/
  serialTimer : Nat
  /-- the port's current mode (`serialSetMode`) -/
  portMode : PortMode
  /-- bytes received and not yet read (`serialTotalBytesWaiting` /
  `serialRead`) -/
  rxBuffer : List Nat
  /-- every byte written so far (`serialWrite`), oldest first -/
  txWritten : List Nat
  /-- the in-memory byte image of the static `hottGPSMessage` buffer -/
  gpsMsgBytes : List Nat
  /-- the in-memory byte image of the static `hottEAMMessage` buffer -/
  eamMsgBytes : List Nat
deriving DecidableEq

/-- The buffer a `hottMsg` pointer of the given kind points into. -/
def msgBuffer (s : HTState) (k : MsgKind) : List Nat :=
  match k with
  | MsgKind.gps => s.gpsMsgBytes
  | MsgKind.eam => s.eamMsgBytes

/-- The frame kind of the in-flight message, if any. -/
def msgKindOf (o : Option (MsgKind × Nat)) : Option MsgKind :=
  o.map Prod.fst

/-- The state at power-up: all statics zero-initialised,
`lookingForRequest = true`, the port in `HOTT_INITIAL_PORT_MODE = MODE_RX`. -/
def initState : HTState :=
  { lastHoTTRequestCheckAt := 0
    lastMessagesPreparedAt := 0
    hottIsSending := false
    hottMsg := none
    hottMsgRemainingBytesToSendCount := 0
    hottMsgCrc := 0
    lookingForRequest := true
    serialTimer := 0
    portMode := PortMode.MODE_RX
    rxBuffer := []
    txWritten := []
    gpsMsgBytes := []
    eamMsgBytes := [] }

/-- `flushHottRxBuffer`: `serialRead` until no bytes are waiting. -/
def flushHottRxBuffer (s : HTState) : HTState :=
  { s with rxBuffer := [] }

/-- `hottSendResponse(buffer, length)`: a no-op if a send is already in
progress; otherwise set `hottMsg` to the start of the buffer and the
remaining count to `length + HOTT_CRC_SIZE` (a `uint8_t` store). -/
def hottSendResponse (s : HTState) (kind : MsgKind) (length : Nat) : HTState :=
  if s.hottIsSending then s
  else
    { s with
      hottMsg := some (kind, 0)
      hottMsgRemainingBytesToSendCount := (length + HOTT_CRC_SIZE) % 256 }

/-- `hottSendGPSResponse`: send the GPS message buffer,
`sizeof(hottGPSMessage)` bytes long. -/
def hottSendGPSResponse (s : HTState) : HTState :=
  hottSendResponse s MsgKind.gps s.gpsMsgBytes.length

/-- `hottSendEAMResponse`: send the EAM message buffer,
`sizeof(hottEAMMessage)` bytes long. -/
def hottSendEAMResponse (s : HTState) : HTState :=
  hottSendResponse s MsgKind.eam s.eamMsgBytes.length

/-- `processBinaryModeRequest(address)`: dispatch on the request address.
`sensors(SENSOR_GPS)` is an external runtime-configuration query, passed
in as `sensorGPS`.  (The `HOTT_DEBUG` counters are compiled out.) -/
def processBinaryModeRequest (sensorGPS : Bool) (s : HTState) (address : Nat) : HTState :=
  if address = 0x8A then
    if sensorGPS then hottSendGPSResponse s else s
  else if address = 0x8E then
    hottSendEAMResponse s
  else s

/-- `hottCheckSerialData(currentMicros)`: the request detector.
`serialTotalBytesWaiting` is stored into a `uint8_t` local, hence the
`% 256`; `serialRead` pops the oldest waiting byte. -/
def hottCheckSerialData (sensorGPS : Bool) (s : HTState) (currentMicros : Nat) : HTState :=
  if s.rxBuffer.length % 256 ≤ 1 then s
  else if s.rxBuffer.length % 256 ≠ 2 then
    { flushHottRxBuffer s with lookingForRequest := true }
  else if s.lookingForRequest then
    { s with lastHoTTRequestCheckAt := currentMicros, lookingForRequest := false }
  else if wrapSub currentMicros s.lastHoTTRequestCheckAt < HOTT_RX_SCHEDULE then
    s
  else if s.rxBuffer.getD 0 0 = HOTT_BINARY_MODE_REQUEST_ID then
    -- requestId = serialRead(); address = serialRead(); dispatch on a match
    processBinaryModeRequest sensorGPS
      { s with lookingForRequest := true, rxBuffer := s.rxBuffer.drop 2 }
      (s.rxBuffer.getD 1 0)
  else
    { s with lookingForRequest := true, rxBuffer := s.rxBuffer.drop 2 }

/-- `hottSendTelemetryData()`: one step of the byte-at-a-time transmitter.
`hottSerialWrite` passes its argument as a `uint8_t`, hence the `% 256` on
written bytes; the crc accumulator is a `uint8_t`, hence its `% 256`.
A `NULL` `hottMsg` in the payload branch would be undefined behaviour in
C; the dispatcher never calls into that branch with `hottMsg == NULL`,
and the model leaves the state unchanged there. -/
def hottSendTelemetryData (s : HTState) : HTState :=
  if s.hottIsSending = false then
    { s with hottIsSending := true, portMode := PortMode.MODE_TX, hottMsgCrc := 0 }
  else if s.hottMsgRemainingBytesToSendCount = 0 then
    flushHottRxBuffer
      { s with hottMsg := none, hottIsSending := false, portMode := PortMode.MODE_RX }
  else if s.hottMsgRemainingBytesToSendCount - 1 = 0 then
    -- hottSerialWrite(hottMsgCrc++)
    { s with
      hottMsgRemainingBytesToSendCount := s.hottMsgRemainingBytesToSendCount - 1
      txWritten := s.txWritten ++ [s.hottMsgCrc % 256]
      hottMsgCrc := (s.hottMsgCrc + 1) % 256 }
  else
    match s.hottMsg with
    | some (k, off) =>
      -- hottMsgCrc += *hottMsg; hottSerialWrite(*hottMsg++)
      { s with
        hottMsgRemainingBytesToSendCount := s.hottMsgRemainingBytesToSendCount - 1
        hottMsgCrc := (s.hottMsgCrc + (msgBuffer s k).getD off 0) % 256
        txWritten := s.txWritten ++ [(msgBuffer s k).getD off 0 % 256]
        hottMsg := some (k, off + 1) }
    | none =>
      { s with hottMsgRemainingBytesToSendCount := s.hottMsgRemainingBytesToSendCount - 1 }

/-- Iterate the transmitter step: `sendSteps n s` is the state after the
dispatcher has granted the transmitter `n` ticks (buffers fixed, no
refresh in between). -/
def sendSteps : Nat → HTState → HTState
  | 0, s => s
  | n + 1, s => sendSteps n (hottSendTelemetryData s)

/-- `shouldPrepareHoTTMessages(currentMicros)` -/
def shouldPrepareHoTTMessages (s : HTState) (currentMicros : Nat) : Bool :=
  decide (wrapSub currentMicros s.lastMessagesPreparedAt ≥ HOTT_MESSAGE_PREPARATION_FREQUENCY_5_HZ)

/-- `shouldCheckForHoTTRequest()`: `false` while a send is in progress. -/
def shouldCheckForHoTTRequest (s : HTState) : Bool :=
  !s.hottIsSending

/-- `hottPrepareMessages()`: re-compose both response frames in place.
The two refresh computations read external telemetry and write through
the (layout-private) `HOTT_GPS_MSG_t` / `HOTT_EAM_MSG_t` structures whose
byte layout lives in `telemetry/hott.h`, not under `src/`; at the byte
level they are therefore kept as parameters `prepGPS`, `prepEAM`
transforming the buffer images in place (the dispatcher-level claims hold
for every such pair). -/
def hottPrepareMessages (prepGPS prepEAM : List Nat → List Nat) (s : HTState) : HTState :=
  let s1 := { s with eamMsgBytes := prepEAM s.eamMsgBytes }
  { s1 with gpsMsgBytes := prepGPS s1.gpsMsgBytes }

/-- Step 1 of `handleHoTTTelemetry`: the refresh cadence. -/
def dispatcherPrepare (prepGPS prepEAM : List Nat → List Nat) (s : HTState) (now : Nat) : HTState :=
  if shouldPrepareHoTTMessages s now then
    { hottPrepareMessages prepGPS prepEAM s with lastMessagesPreparedAt := now }
  else s

/-- Step 2 of `handleHoTTTelemetry`: request detection, gated on no send
being in progress. -/
def dispatcherDetect (sensorGPS : Bool) (s : HTState) (now : Nat) : HTState :=
  if shouldCheckForHoTTRequest s then hottCheckSerialData sensorGPS s now else s

/-- Steps 3–4 of `handleHoTTTelemetry`: return if no message is pending;
enforce the inter-byte delay while sending; otherwise run one transmitter
step and stamp `serialTimer`. -/
def dispatcherSend (s : HTState) (now : Nat) : HTState :=
  if s.hottMsg = none then s
  else if s.hottIsSending = true ∧ wrapSub now s.serialTimer < HOTT_TX_DELAY_US then s
  else { hottSendTelemetryData s with serialTimer := now }

/-- `handleHoTTTelemetry()`: the single polled dispatcher entry point. -/
def handleHoTTTelemetry (sensorGPS : Bool) (prepGPS prepEAM : List Nat → List Nat)
    (s : HTState) (now : Nat) : HTState :=
  dispatcherSend (dispatcherDetect sensorGPS (dispatcherPrepare prepGPS prepEAM s now) now) now

/-- `getHoTTTelemetryProviderBaudRate()` -/
def getHoTTTelemetryProviderBaudRate : Nat := 19200

/-! ## Sample inputs used by the witnesses -/

/-- A snapshot with a GPS fix, 6 satellites and a ground speed of 250
(0.1 m/s units). -/
def sampleSnapshotFix : VehicleSnapshot :=
  { gpsFix := true, numSat := 6, coordLat := 123456789, coordLon := -123456789
    speed := 250, distanceToHome := 100, altitude := 500, directionToHome := 90 }

/-- A snapshot without a GPS fix. -/
def sampleSnapshotNoFix : VehicleSnapshot :=
  { sampleSnapshotFix with gpsFix := false, numSat := 2 }

/-- A state in which a send of a 3-byte GPS frame has just been scheduled
but the transmitter has not started: the crc accumulator still holds a
stale value from an earlier send and a residual byte sits in the rx
buffer. -/
def sampleSendStart : HTState :=
  { initState with
    gpsMsgBytes := [0x7C, 1, 0x7D]
    eamMsgBytes := [0x7C, 2, 2, 0x7D]
    hottMsg := some (MsgKind.gps, 0)
    hottMsgRemainingBytesToSendCount := 4
    hottMsgCrc := 99
    serialTimer := 100
    rxBuffer := [7] }

/-- A state mid-send: the transmitter is active with two bytes still to
go, while a complete 2-byte request sits unread in the rx buffer. -/
def sampleMidSend : HTState :=
  { initState with
    gpsMsgBytes := [0x7C, 1, 0x7D]
    hottIsSending := true
    hottMsg := some (MsgKind.gps, 2)
    hottMsgRemainingBytesToSendCount := 2
    hottMsgCrc := 125
    portMode := PortMode.MODE_TX
    serialTimer := 50000
    lookingForRequest := false
    lastHoTTRequestCheckAt := 40000
    rxBuffer := [0x80, 0x8A] }

/-- A state with the detector armed on a 2-byte request and no send in
progress. -/
def sampleArmed : HTState :=
  { initState with
    gpsMsgBytes := [0x7C, 1, 0x7D]
    eamMsgBytes := [0x7C, 2, 2, 0x7D]
    lookingForRequest := false
    lastHoTTRequestCheckAt := 10000
    rxBuffer := [0x80, 0x8A] }

/-! ## Frame Codec theorems -/

/-- Claim C5 (amended): `addGPSCoordinates` packs the degree-minute pair and
the seconds-times-100 field exactly per the specification's formula read
with C's truncating division and remainder, and sets the hemisphere flag to
1 exactly when the input is negative.  (For negative inputs the packed
16-bit values are the mod-2^16 wraps of the negative formula results, not a
sign-free magnitude — see the counterexample.) -/
theorem addGPSCoordinates_matches_spec_formula (m : HOTT_GPS_MSG) (lat lon : Int) :
    (addGPSCoordinates m lat lon).pos_NS = (if lat < 0 then 1 else 0) ∧
    (addGPSCoordinates m lat lon).pos_NS_dm_L = specCoordDegMin lat % 256 ∧
    (addGPSCoordinates m lat lon).pos_NS_dm_H = specCoordDegMin lat / 256 % 256 ∧
    (addGPSCoordinates m lat lon).pos_NS_sec_L = toU8 (specCoordSec100 lat) ∧
    (addGPSCoordinates m lat lon).pos_NS_sec_H = toU8 ((specCoordSec100 lat).fdiv 256) ∧
    (addGPSCoordinates m lat lon).pos_EW = (if lon < 0 then 1 else 0) ∧
    (addGPSCoordinates m lat lon).pos_EW_dm_L = specCoordDegMin lon % 256 ∧
    (addGPSCoordinates m lat lon).pos_EW_dm_H = specCoordDegMin lon / 256 % 256 ∧
    (addGPSCoordinates m lat lon).pos_EW_sec_L = toU8 (specCoordSec100 lon) ∧
    (addGPSCoordinates m lat lon).pos_EW_sec_H = toU8 ((specCoordSec100 lon).fdiv 256) :=
  ⟨rfl, rfl, rfl, rfl, rfl, rfl, rfl, rfl, rfl, rfl⟩

/-- Claim C5 counterexample: the sign of the coordinate is not carried only
by the hemisphere flag.  For `v = -123456789` (with the flag correctly 1)
the packed degree-minute bytes are `[60, 251]` — the 16-bit wrap of the
negative `-1220` — while `v = 123456789` packs `[196, 4]` (i.e. `1220`):
the packed value differs between `v` and `-v`, so it is not a sign-free
magnitude. -/
theorem addGPSCoordinates_sign_in_packed_value :
    (addGPSCoordinates initialiseGPSMessage (-123456789) 0).pos_NS = 1 ∧
    (addGPSCoordinates initialiseGPSMessage (-123456789) 0).pos_NS_dm_L = 60 ∧
    (addGPSCoordinates initialiseGPSMessage (-123456789) 0).pos_NS_dm_H = 251 ∧
    (addGPSCoordinates initialiseGPSMessage 123456789 0).pos_NS_dm_L = 196 ∧
    (addGPSCoordinates initialiseGPSMessage 123456789 0).pos_NS_dm_H = 4 ∧
    ((addGPSCoordinates initialiseGPSMessage (-123456789) 0).pos_NS_dm_L ≠
      (addGPSCoordinates initialiseGPSMessage 123456789 0).pos_NS_dm_L) := by
  refine ⟨rfl, by decide, by decide, by decide, by decide, by decide⟩

/-- Claim C9: with a fix, the ground-speed field is
`(speed_0.1ms / 100) * 36` km/h packed little-endian into the two speed
bytes. -/
theorem hottPrepareGPSResponse_speed_encoding (v : VehicleSnapshot) (m : HOTT_GPS_MSG)
    (hfix : v.gpsFix = true) (hs : v.speed < 65536) :
    (hottPrepareGPSResponse v m).gps_speed_L = ((v.speed / 100) * 36) % 256 ∧
    (hottPrepareGPSResponse v m).gps_speed_H = ((v.speed / 100) * 36) / 256 := by
  obtain ⟨fix, ns, la, lo, sp, dh, al, dth⟩ := v
  simp only at hfix hs
  subst hfix
  have hb : (sp / 100) * 36 < 65536 := by
    have h1 : sp / 100 ≤ 65535 / 100 := Nat.div_le_div_right (Nat.le_of_lt_succ hs)
    have h2 : sp / 100 ≤ 655 := by norm_num at h1; exact h1
    have h3 : (sp / 100) * 36 ≤ 655 * 36 := Nat.mul_le_mul_right _ h2
    omega
  have e : ((sp / 100) * 36) % 65536 = (sp / 100) * 36 := Nat.mod_eq_of_lt hb
  constructor
  · show ((sp / 100) * 36) % 65536 % 256 = ((sp / 100) * 36) % 256
    rw [e]
  · show ((sp / 100) * 36) % 65536 / 256 % 256 = ((sp / 100) * 36) / 256
    rw [e]
    have hd : (sp / 100) * 36 / 256 < 256 :=
      (Nat.div_lt_iff_lt_mul (by norm_num)).mpr (by omega)
    exact Nat.mod_eq_of_lt hd

/-- Claim C9 witness: input speed 250 (0.1 m/s) yields 72 km/h, packed as
little-endian bytes `[72, 0]`. -/
theorem hottPrepareGPSResponse_speed_encoding_witness :
    sampleSnapshotFix.gpsFix = true ∧ sampleSnapshotFix.speed < 65536 ∧
    ((hottPrepareGPSResponse sampleSnapshotFix initialiseGPSMessage).gps_speed_L =
        ((sampleSnapshotFix.speed / 100) * 36) % 256 ∧
      (hottPrepareGPSResponse sampleSnapshotFix initialiseGPSMessage).gps_speed_H =
        ((sampleSnapshotFix.speed / 100) * 36) / 256) ∧
    (hottPrepareGPSResponse sampleSnapshotFix initialiseGPSMessage).gps_speed_L = 72 ∧
    (hottPrepareGPSResponse sampleSnapshotFix initialiseGPSMessage).gps_speed_H = 0 :=
  ⟨rfl, by decide,
    hottPrepareGPSResponse_speed_encoding sampleSnapshotFix initialiseGPSMessage rfl (by decide),
    by decide, by decide⟩

/-- Claim C10: without a GPS fix, a refresh updates only the satellite
count and the fix character (set to the `none` marker) and leaves every
other byte of the GPS frame unchanged. -/
theorem hottPrepareGPSResponse_no_fix (v : VehicleSnapshot) (m : HOTT_GPS_MSG)
    (h : v.gpsFix = false) :
    hottPrepareGPSResponse v m =
      { m with gps_satelites := v.numSat % 256, gps_fix_char := GPS_FIX_CHAR_NONE } := by
  obtain ⟨fix, ns, la, lo, sp, dh, al, dth⟩ := v
  simp only at h
  subst h
  rfl

/-- Claim C10 witness: a concrete no-fix refresh of an initialised frame. -/
theorem hottPrepareGPSResponse_no_fix_witness :
    sampleSnapshotNoFix.gpsFix = false ∧
    hottPrepareGPSResponse sampleSnapshotNoFix initialiseGPSMessage =
      { initialiseGPSMessage with
        gps_satelites := sampleSnapshotNoFix.numSat % 256
        gps_fix_char := GPS_FIX_CHAR_NONE } :=
  ⟨rfl, hottPrepareGPSResponse_no_fix sampleSnapshotNoFix initialiseGPSMessage rfl⟩

/-! ## Frame Transmitter theorems -/

/-- A step that does not touch the two frame buffers does not change the
buffer a pointer of kind `k` points into. -/
theorem msgBuffer_eq_of (s t : HTState) (hg : t.gpsMsgBytes = s.gpsMsgBytes)
    (he : t.eamMsgBytes = s.eamMsgBytes) (k : MsgKind) : msgBuffer t k = msgBuffer s k := by
  cases k <;> simp [msgBuffer, hg, he]

/-- Unfolding lemma: iterating one more transmitter step. -/
theorem sendSteps_succ (n : Nat) (s : HTState) :
    sendSteps (n + 1) s = sendSteps n (hottSendTelemetryData s) := rfl

/-- Splitting an iteration of transmitter steps. -/
theorem sendSteps_add (a b : Nat) (s : HTState) :
    sendSteps (a + b) s = sendSteps b (sendSteps a s) := by
  induction a generalizing s with
  | zero => simp [sendSteps]
  | succ a ih =>
    have : a + 1 + b = (a + b) + 1 := by omega
    rw [this]
    show sendSteps (a + b) (hottSendTelemetryData s) = _
    rw [ih]
    rfl

/-- The transmitter's main loop: from a mid-send state with `m` payload
bytes left before the checksum, `m + 1` further granted ticks write the
remaining payload bytes followed by the checksum accumulator summed over
them, and leave the transmitter armed with a zero remaining count.  The
detector state, port mode, rx buffer and both frame buffers are untouched
along the way. -/
theorem sendSteps_loop (m : Nat) : ∀ (s : HTState) (k : MsgKind) (off : Nat),
    s.hottIsSending = true →
    s.hottMsg = some (k, off) →
    s.hottMsgRemainingBytesToSendCount = m + 1 →
    off + m = (msgBuffer s k).length →
    (∀ b ∈ msgBuffer s k, b < 256) →
    (sendSteps (m + 1) s).txWritten =
        s.txWritten ++ (msgBuffer s k).drop off ++
          [(s.hottMsgCrc + ((msgBuffer s k).drop off).sum) % 256] ∧
    (sendSteps (m + 1) s).hottIsSending = true ∧
    (sendSteps (m + 1) s).hottMsgRemainingBytesToSendCount = 0 ∧
    (sendSteps (m + 1) s).hottMsg = some (k, (msgBuffer s k).length) ∧
    (sendSteps (m + 1) s).rxBuffer = s.rxBuffer ∧
    (sendSteps (m + 1) s).portMode = s.portMode ∧
    (sendSteps (m + 1) s).gpsMsgBytes = s.gpsMsgBytes ∧
    (sendSteps (m + 1) s).eamMsgBytes = s.eamMsgBytes ∧
    (sendSteps (m + 1) s).lookingForRequest = s.lookingForRequest ∧
    (sendSteps (m + 1) s).lastHoTTRequestCheckAt = s.lastHoTTRequestCheckAt ∧
    (sendSteps (m + 1) s).lastMessagesPreparedAt = s.lastMessagesPreparedAt ∧
    (sendSteps (m + 1) s).serialTimer = s.serialTimer := by
  induction m with
  | zero =>
    intro s k off hsend hmsg hrem hoff _
    have hstep : hottSendTelemetryData s =
        { s with
          hottMsgRemainingBytesToSendCount := 0
          txWritten := s.txWritten ++ [s.hottMsgCrc % 256]
          hottMsgCrc := (s.hottMsgCrc + 1) % 256 } := by
      unfold hottSendTelemetryData
      rw [hsend, hrem]
      simp
    have hoff' : off = (msgBuffer s k).length := by omega
    rw [sendSteps_succ]
    rw [hstep]
    subst hoff'
    simp [sendSteps, hmsg, List.drop_length, hsend]
  | succ m ih =>
    intro s k off hsend hmsg hrem hoff hbytes
    have hlt : off < (msgBuffer s k).length := by omega
    have hstep : hottSendTelemetryData s =
        { s with
          hottMsgRemainingBytesToSendCount := m + 1
          hottMsgCrc := (s.hottMsgCrc + (msgBuffer s k)[off]) % 256
          txWritten := s.txWritten ++ [(msgBuffer s k)[off] % 256]
          hottMsg := some (k, off + 1) } := by
      unfold hottSendTelemetryData
      rw [hsend, hrem, hmsg]
      simp [List.getElem?_eq_getElem hlt]
    set s2 : HTState :=
      { s with
        hottMsgRemainingBytesToSendCount := m + 1
        hottMsgCrc := (s.hottMsgCrc + (msgBuffer s k)[off]) % 256
        txWritten := s.txWritten ++ [(msgBuffer s k)[off] % 256]
        hottMsg := some (k, off + 1) } with hs2
    have hbufeq : msgBuffer s2 k = msgBuffer s k := by
      cases k <;> rfl
    have ihc := ih s2 k (off + 1) hsend rfl rfl (by rw [hbufeq]; omega)
      (by rw [hbufeq]; exact hbytes)
    rw [sendSteps_succ, hstep]
    rw [hbufeq] at ihc
    obtain ⟨htx, hrest⟩ := ihc
    refine ⟨?_, hrest⟩
    rw [htx]
    have hdrop : (msgBuffer s k).drop off =
        (msgBuffer s k)[off] :: (msgBuffer s k).drop (off + 1) :=
      List.drop_eq_getElem_cons hlt
    have hblt : (msgBuffer s k)[off] % 256 = (msgBuffer s k)[off] :=
      Nat.mod_eq_of_lt (hbytes _ (List.getElem_mem hlt))
    show (s.txWritten ++ [(msgBuffer s k)[off] % 256]) ++ _ ++ _ = _
    rw [hdrop, hblt]
    simp only [List.append_assoc, List.singleton_append, List.cons_append, List.nil_append,
      List.sum_cons, Nat.mod_add_mod, Nat.add_assoc]

/-- The transmitter's start step: called with no send in progress, it arms
the send, switches the port to transmit and zeroes the crc accumulator,
writing nothing. -/
theorem hottSendTelemetryData_start (s : HTState) (hsend : s.hottIsSending = false) :
    hottSendTelemetryData s =
      { s with hottIsSending := true, portMode := PortMode.MODE_TX, hottMsgCrc := 0 } := by
  unfold hottSendTelemetryData
  rw [hsend]
  simp

/-- The transmitter's completion step: with a zero remaining count it
clears the cursor, leaves the sending state, switches the port back to
receive and discards the rx buffer. -/
theorem hottSendTelemetryData_complete (s : HTState)
    (hsend : s.hottIsSending = true) (hrem : s.hottMsgRemainingBytesToSendCount = 0) :
    hottSendTelemetryData s =
      { s with hottMsg := none, hottIsSending := false,
               portMode := PortMode.MODE_RX, rxBuffer := [] } := by
  unfold hottSendTelemetryData
  rw [hsend, hrem]
  simp [flushHottRxBuffer]

/-- Claim C1: a frame handed to the transmitter (cursor at the buffer
start, remaining count = payload length + 1) is sent as the payload bytes
followed by one final byte equal to the arithmetic sum, modulo 256, of
exactly those payload bytes; and the crc accumulator is reset to zero by
the start step of each send, whatever stale value it held before. -/
theorem hott_send_checksum (s : HTState) (k : MsgKind)
    (hsend : s.hottIsSending = false)
    (hmsg : s.hottMsg = some (k, 0))
    (hrem : s.hottMsgRemainingBytesToSendCount = (msgBuffer s k).length + 1)
    (hbytes : ∀ b ∈ msgBuffer s k, b < 256) :
    (sendSteps ((msgBuffer s k).length + 2) s).txWritten =
      s.txWritten ++ msgBuffer s k ++ [(msgBuffer s k).sum % 256] ∧
    (sendSteps 1 s).hottMsgCrc = 0 := by
  have hstart := hottSendTelemetryData_start s hsend
  constructor
  · have h2 : (msgBuffer s k).length + 2 = 1 + ((msgBuffer s k).length + 1) := by omega
    rw [h2, sendSteps_add]
    have h1 : sendSteps 1 s =
        { s with hottIsSending := true, portMode := PortMode.MODE_TX, hottMsgCrc := 0 } := by
      show hottSendTelemetryData s = _
      exact hstart
    rw [h1]
    set s1 : HTState :=
      { s with hottIsSending := true, portMode := PortMode.MODE_TX, hottMsgCrc := 0 } with hs1
    have hbuf1 : msgBuffer s1 k = msgBuffer s k := by cases k <;> rfl
    have hloop := sendSteps_loop (msgBuffer s k).length s1 k 0 rfl hmsg hrem
      (by rw [hbuf1]; omega) (by rw [hbuf1]; exact hbytes)
    rw [hbuf1] at hloop
    rw [hloop.1]
    simp
  · show (hottSendTelemetryData s).hottMsgCrc = 0
    rw [hstart]

/-- Claim C1 witness: a concrete 3-byte frame `[0x7C, 1, 0x7D]` is
transmitted as those bytes followed by `(0x7C + 1 + 0x7D) % 256 = 250`,
and the first transmitter tick clears the stale accumulator value 99. -/
theorem hott_send_checksum_witness :
    sampleSendStart.hottIsSending = false ∧
    sampleSendStart.hottMsg = some (MsgKind.gps, 0) ∧
    sampleSendStart.hottMsgRemainingBytesToSendCount =
      (msgBuffer sampleSendStart MsgKind.gps).length + 1 ∧
    (∀ b ∈ msgBuffer sampleSendStart MsgKind.gps, b < 256) ∧
    ((sendSteps ((msgBuffer sampleSendStart MsgKind.gps).length + 2) sampleSendStart).txWritten =
        sampleSendStart.txWritten ++ msgBuffer sampleSendStart MsgKind.gps ++
          [(msgBuffer sampleSendStart MsgKind.gps).sum % 256] ∧
      (sendSteps 1 sampleSendStart).hottMsgCrc = 0) ∧
    (sendSteps ((msgBuffer sampleSendStart MsgKind.gps).length + 2) sampleSendStart).txWritten =
      [0x7C, 1, 0x7D, 250] :=
  ⟨rfl, rfl, by decide, by decide,
    hott_send_checksum sampleSendStart MsgKind.gps rfl rfl (by decide) (by decide),
    by decide⟩

/-! ## Preservation lemmas for the dispatcher phases -/

/-- The refresh phase touches only the two frame buffers and the refresh
timestamp. -/
theorem dispatcherPrepare_preserves (pg pe : List Nat → List Nat) (s : HTState) (now : Nat) :
    (dispatcherPrepare pg pe s now).hottIsSending = s.hottIsSending ∧
    (dispatcherPrepare pg pe s now).hottMsg = s.hottMsg ∧
    (dispatcherPrepare pg pe s now).hottMsgRemainingBytesToSendCount =
      s.hottMsgRemainingBytesToSendCount ∧
    (dispatcherPrepare pg pe s now).hottMsgCrc = s.hottMsgCrc ∧
    (dispatcherPrepare pg pe s now).lookingForRequest = s.lookingForRequest ∧
    (dispatcherPrepare pg pe s now).lastHoTTRequestCheckAt = s.lastHoTTRequestCheckAt ∧
    (dispatcherPrepare pg pe s now).serialTimer = s.serialTimer ∧
    (dispatcherPrepare pg pe s now).portMode = s.portMode ∧
    (dispatcherPrepare pg pe s now).rxBuffer = s.rxBuffer ∧
    (dispatcherPrepare pg pe s now).txWritten = s.txWritten := by
  unfold dispatcherPrepare hottPrepareMessages
  split_ifs <;> exact ⟨rfl, rfl, rfl, rfl, rfl, rfl, rfl, rfl, rfl, rfl⟩

/-- The request detector never writes to the port, never changes the
sending flag, the crc accumulator, the port mode, the timers of the other
phases, or the frame buffers. -/
theorem hottCheckSerialData_preserves (sg : Bool) (s : HTState) (now : Nat) :
    (hottCheckSerialData sg s now).txWritten = s.txWritten ∧
    (hottCheckSerialData sg s now).hottIsSending = s.hottIsSending ∧
    (hottCheckSerialData sg s now).hottMsgCrc = s.hottMsgCrc ∧
    (hottCheckSerialData sg s now).portMode = s.portMode ∧
    (hottCheckSerialData sg s now).serialTimer = s.serialTimer ∧
    (hottCheckSerialData sg s now).lastMessagesPreparedAt = s.lastMessagesPreparedAt ∧
    (hottCheckSerialData sg s now).gpsMsgBytes = s.gpsMsgBytes ∧
    (hottCheckSerialData sg s now).eamMsgBytes = s.eamMsgBytes := by
  unfold hottCheckSerialData processBinaryModeRequest hottSendGPSResponse
    hottSendEAMResponse hottSendResponse flushHottRxBuffer
  split_ifs <;> exact ⟨rfl, rfl, rfl, rfl, rfl, rfl, rfl, rfl⟩

/-- The detection phase is skipped entirely while a send is in progress. -/
theorem dispatcherDetect_sending (sg : Bool) (s : HTState) (now : Nat)
    (h : s.hottIsSending = true) : dispatcherDetect sg s now = s := by
  unfold dispatcherDetect shouldCheckForHoTTRequest
  rw [h]
  simp

/-- The detection phase preserves the same fields as the detector. -/
theorem dispatcherDetect_preserves (sg : Bool) (s : HTState) (now : Nat) :
    (dispatcherDetect sg s now).txWritten = s.txWritten ∧
    (dispatcherDetect sg s now).hottIsSending = s.hottIsSending ∧
    (dispatcherDetect sg s now).hottMsgCrc = s.hottMsgCrc ∧
    (dispatcherDetect sg s now).portMode = s.portMode ∧
    (dispatcherDetect sg s now).serialTimer = s.serialTimer ∧
    (dispatcherDetect sg s now).lastMessagesPreparedAt = s.lastMessagesPreparedAt ∧
    (dispatcherDetect sg s now).gpsMsgBytes = s.gpsMsgBytes ∧
    (dispatcherDetect sg s now).eamMsgBytes = s.eamMsgBytes := by
  unfold dispatcherDetect
  split_ifs with h
  · exact hottCheckSerialData_preserves sg s now
  · exact ⟨rfl, rfl, rfl, rfl, rfl, rfl, rfl, rfl⟩

/-- One transmitter step writes at most one byte. -/
theorem hottSendTelemetryData_txLen (s : HTState) :
    (hottSendTelemetryData s).txWritten.length ≤ s.txWritten.length + 1 := by
  unfold hottSendTelemetryData flushHottRxBuffer
  rcases h : s.hottMsg with _ | ⟨k, off⟩ <;> split_ifs <;> simp

/-- One transmitter step never touches the frame buffers, the refresh
timestamp or the detector state. -/
theorem hottSendTelemetryData_preserves (s : HTState) :
    (hottSendTelemetryData s).gpsMsgBytes = s.gpsMsgBytes ∧
    (hottSendTelemetryData s).eamMsgBytes = s.eamMsgBytes ∧
    (hottSendTelemetryData s).lastMessagesPreparedAt = s.lastMessagesPreparedAt ∧
    (hottSendTelemetryData s).lookingForRequest = s.lookingForRequest ∧
    (hottSendTelemetryData s).lastHoTTRequestCheckAt = s.lastHoTTRequestCheckAt := by
  unfold hottSendTelemetryData flushHottRxBuffer
  rcases h : s.hottMsg with _ | ⟨k, off⟩ <;> split_ifs <;>
    exact ⟨rfl, rfl, rfl, rfl, rfl⟩

/-- The send phase preserves the frame buffers, the refresh timestamp and
the detector state. -/
theorem dispatcherSend_preserves (s : HTState) (now : Nat) :
    (dispatcherSend s now).gpsMsgBytes = s.gpsMsgBytes ∧
    (dispatcherSend s now).eamMsgBytes = s.eamMsgBytes ∧
    (dispatcherSend s now).lastMessagesPreparedAt = s.lastMessagesPreparedAt ∧
    (dispatcherSend s now).lookingForRequest = s.lookingForRequest ∧
    (dispatcherSend s now).lastHoTTRequestCheckAt = s.lastHoTTRequestCheckAt := by
  unfold dispatcherSend
  split_ifs with h1 h2
  · exact ⟨rfl, rfl, rfl, rfl, rfl⟩
  · exact ⟨rfl, rfl, rfl, rfl, rfl⟩
  · have := hottSendTelemetryData_preserves s
    exact ⟨this.1, this.2.1, this.2.2.1, this.2.2.2.1, this.2.2.2.2⟩

/-- Claim C6: a send of a frame of payload length N writes exactly N+1
bytes (payload then checksum) and then completes: cursor cleared, port
back in receive mode, residual rx bytes discarded.  Moreover every
dispatcher tick writes at most one byte, and a tick that falls within the
minimum inter-byte delay of the previous transmitter activity writes
nothing at all. -/
theorem hott_transmission_completeness (s : HTState) (k : MsgKind)
    (hsend : s.hottIsSending = false)
    (hmsg : s.hottMsg = some (k, 0))
    (hrem : s.hottMsgRemainingBytesToSendCount = (msgBuffer s k).length + 1)
    (hbytes : ∀ b ∈ msgBuffer s k, b < 256) :
    ((sendSteps ((msgBuffer s k).length + 3) s).txWritten.length =
        s.txWritten.length + ((msgBuffer s k).length + 1) ∧
      (sendSteps ((msgBuffer s k).length + 3) s).hottMsg = none ∧
      (sendSteps ((msgBuffer s k).length + 3) s).hottIsSending = false ∧
      (sendSteps ((msgBuffer s k).length + 3) s).portMode = PortMode.MODE_RX ∧
      (sendSteps ((msgBuffer s k).length + 3) s).rxBuffer = []) ∧
    (∀ (sg : Bool) (pg pe : List Nat → List Nat) (t : HTState) (now : Nat),
        (handleHoTTTelemetry sg pg pe t now).txWritten.length ≤ t.txWritten.length + 1) ∧
    (∀ (sg : Bool) (pg pe : List Nat → List Nat) (t : HTState) (now : Nat),
        t.hottIsSending = true → wrapSub now t.serialTimer < HOTT_TX_DELAY_US →
        (handleHoTTTelemetry sg pg pe t now).txWritten = t.txWritten) := by
  refine ⟨?_, ?_, ?_⟩
  · have hstart := hottSendTelemetryData_start s hsend
    have h1 : sendSteps 1 s =
        { s with hottIsSending := true, portMode := PortMode.MODE_TX, hottMsgCrc := 0 } :=
      hstart
    set s1 : HTState :=
      { s with hottIsSending := true, portMode := PortMode.MODE_TX, hottMsgCrc := 0 } with hs1
    have hbuf1 : msgBuffer s1 k = msgBuffer s k := by cases k <;> rfl
    have hloop := sendSteps_loop (msgBuffer s k).length s1 k 0 rfl hmsg hrem
      (by rw [hbuf1]; omega) (by rw [hbuf1]; exact hbytes)
    rw [hbuf1] at hloop
    obtain ⟨htx, hsend2, hrem2, _, _, _, _, _, _, _, _, _⟩ := hloop
    have hsplit : (msgBuffer s k).length + 2 = 1 + ((msgBuffer s k).length + 1) := by omega
    have hT : sendSteps ((msgBuffer s k).length + 2) s =
        sendSteps ((msgBuffer s k).length + 1) s1 := by
      rw [hsplit, sendSteps_add, h1]
    have hsplit2 : (msgBuffer s k).length + 3 = ((msgBuffer s k).length + 2) + 1 := by omega
    have hE : sendSteps ((msgBuffer s k).length + 3) s =
        hottSendTelemetryData (sendSteps ((msgBuffer s k).length + 1) s1) := by
      rw [hsplit2, sendSteps_add, hT]
      rfl
    have hcomp := hottSendTelemetryData_complete _ hsend2 hrem2
    rw [hE, hcomp]
    refine ⟨?_, rfl, rfl, rfl, rfl⟩
    show (sendSteps ((msgBuffer s k).length + 1) s1).txWritten.length = _
    rw [htx]
    simp [List.length_append]
  · intro sg pg pe t now
    unfold handleHoTTTelemetry
    obtain ⟨_, _, _, _, _, _, _, _, _, hp10⟩ := dispatcherPrepare_preserves pg pe t now
    obtain ⟨hd1, _, _, _, _, _, _, _⟩ :=
      dispatcherDetect_preserves sg (dispatcherPrepare pg pe t now) now
    have htx : (dispatcherDetect sg (dispatcherPrepare pg pe t now) now).txWritten =
        t.txWritten := by rw [hd1, hp10]
    set s2 := dispatcherDetect sg (dispatcherPrepare pg pe t now) now with hs2
    unfold dispatcherSend
    split_ifs with c1 c2
    · rw [htx]; omega
    · rw [htx]; omega
    · have hlen := hottSendTelemetryData_txLen s2
      have : ({ hottSendTelemetryData s2 with serialTimer := now }).txWritten.length =
          (hottSendTelemetryData s2).txWritten.length := rfl
      rw [this, ← htx]
      exact hlen
  · intro sg pg pe t now hsend1 hdel
    unfold handleHoTTTelemetry
    obtain ⟨hp1, _, _, _, _, _, hp7, _, _, hp10⟩ := dispatcherPrepare_preserves pg pe t now
    have hsend2 : (dispatcherPrepare pg pe t now).hottIsSending = true := by rw [hp1, hsend1]
    rw [dispatcherDetect_sending sg _ now hsend2]
    unfold dispatcherSend
    split_ifs with c1 c2
    · exact hp10
    · exact hp10
    · exact absurd ⟨hsend2, by rw [hp7]; exact hdel⟩ c2

/-- Claim C6 witness: the concrete 3-byte frame send writes exactly 4
bytes and completes with the port back in receive mode and the rx buffer
flushed; a tick on an idle state writes at most one byte; and a mid-send
tick 1000 microseconds after the previous write writes nothing. -/
theorem hott_transmission_completeness_witness :
    sampleSendStart.hottIsSending = false ∧
    sampleSendStart.hottMsg = some (MsgKind.gps, 0) ∧
    sampleSendStart.hottMsgRemainingBytesToSendCount =
      (msgBuffer sampleSendStart MsgKind.gps).length + 1 ∧
    (∀ b ∈ msgBuffer sampleSendStart MsgKind.gps, b < 256) ∧
    ((sendSteps ((msgBuffer sampleSendStart MsgKind.gps).length + 3) sampleSendStart).txWritten.length =
        sampleSendStart.txWritten.length + ((msgBuffer sampleSendStart MsgKind.gps).length + 1) ∧
      (sendSteps ((msgBuffer sampleSendStart MsgKind.gps).length + 3) sampleSendStart).hottMsg = none ∧
      (sendSteps ((msgBuffer sampleSendStart MsgKind.gps).length + 3) sampleSendStart).hottIsSending = false ∧
      (sendSteps ((msgBuffer sampleSendStart MsgKind.gps).length + 3) sampleSendStart).portMode = PortMode.MODE_RX ∧
      (sendSteps ((msgBuffer sampleSendStart MsgKind.gps).length + 3) sampleSendStart).rxBuffer = []) ∧
    (handleHoTTTelemetry true id id initState 0).txWritten.length ≤ initState.txWritten.length + 1 ∧
    (sampleMidSend.hottIsSending = true ∧
      wrapSub 51000 sampleMidSend.serialTimer < HOTT_TX_DELAY_US ∧
      (handleHoTTTelemetry true id id sampleMidSend 51000).txWritten = sampleMidSend.txWritten) := by
  have h := hott_transmission_completeness sampleSendStart MsgKind.gps rfl rfl (by decide) (by decide)
  exact ⟨rfl, rfl, by decide, by decide, h.1, h.2.1 true id id initState 0,
    rfl, by decide, h.2.2 true id id sampleMidSend 51000 rfl (by decide)⟩

/-! ## Session Dispatcher theorems -/

/-- Claim C7: whenever the 5 Hz refresh interval has elapsed, a dispatcher
tick re-composes both response frame buffers in place and records the new
refresh time — with no condition on the sending state, so in particular
also while a send of one of those frames is in progress. -/
theorem hott_refresh_unconditional (sg : Bool) (pg pe : List Nat → List Nat)
    (s : HTState) (now : Nat)
    (h : shouldPrepareHoTTMessages s now = true) :
    (handleHoTTTelemetry sg pg pe s now).gpsMsgBytes = pg s.gpsMsgBytes ∧
    (handleHoTTTelemetry sg pg pe s now).eamMsgBytes = pe s.eamMsgBytes ∧
    (handleHoTTTelemetry sg pg pe s now).lastMessagesPreparedAt = now := by
  unfold handleHoTTTelemetry
  have hprep : dispatcherPrepare pg pe s now =
      { hottPrepareMessages pg pe s with lastMessagesPreparedAt := now } := by
    unfold dispatcherPrepare
    rw [h]
    simp
  rw [hprep]
  obtain ⟨_, _, _, _, _, hd6, hd7, hd8⟩ := dispatcherDetect_preserves sg
    { hottPrepareMessages pg pe s with lastMessagesPreparedAt := now } now
  obtain ⟨hs1, hs2, hs3, _, _⟩ := dispatcherSend_preserves
    (dispatcherDetect sg { hottPrepareMessages pg pe s with lastMessagesPreparedAt := now } now)
    now
  refine ⟨?_, ?_, ?_⟩
  · rw [hs1, hd7]; rfl
  · rw [hs2, hd8]; rfl
  · rw [hs3, hd6]

/-- Claim C7 witness: a tick on a mid-send state whose refresh interval
has elapsed still re-composes both buffers (here with `List.reverse`
standing for the two refresh transformations) and stamps the refresh
time. -/
theorem hott_refresh_unconditional_witness :
    shouldPrepareHoTTMessages sampleMidSend 200000 = true ∧
    sampleMidSend.hottIsSending = true ∧
    ((handleHoTTTelemetry true List.reverse List.reverse sampleMidSend 200000).gpsMsgBytes =
        List.reverse sampleMidSend.gpsMsgBytes ∧
      (handleHoTTTelemetry true List.reverse List.reverse sampleMidSend 200000).eamMsgBytes =
        List.reverse sampleMidSend.eamMsgBytes ∧
      (handleHoTTTelemetry true List.reverse List.reverse sampleMidSend 200000).lastMessagesPreparedAt =
        200000) :=
  ⟨by decide, rfl,
    hott_refresh_unconditional true List.reverse List.reverse sampleMidSend 200000 (by decide)⟩

/-- While a send is active with bytes still to go, one transmitter step
keeps the sending flag, keeps the frame kind of the cursor, and does not
touch the rx buffer. -/
theorem hottSendTelemetryData_active (s : HTState)
    (h : s.hottIsSending = true) (hr : s.hottMsgRemainingBytesToSendCount ≠ 0) :
    msgKindOf (hottSendTelemetryData s).hottMsg = msgKindOf s.hottMsg ∧
    (hottSendTelemetryData s).hottIsSending = true ∧
    (hottSendTelemetryData s).rxBuffer = s.rxBuffer := by
  unfold hottSendTelemetryData
  rcases hm : s.hottMsg with _ | ⟨k, off⟩ <;> split_ifs <;> simp_all [msgKindOf]

/-- Claim C2: `hottSendResponse` is a no-op while a send is in progress
(a new request is dropped, not queued); and a dispatcher tick taken in a
sending state runs no request detection — the detector's window state and
timestamp are untouched and the rx bytes are never consumed as a request
(at most discarded wholesale when the send completes) — and never starts
a send of a different frame: the cursor keeps its frame kind until it is
cleared by completion. -/
theorem hott_single_send_in_flight :
    (∀ (s : HTState) (k : MsgKind) (n : Nat),
      s.hottIsSending = true → hottSendResponse s k n = s) ∧
    (∀ (sg : Bool) (pg pe : List Nat → List Nat) (s : HTState) (now : Nat),
      s.hottIsSending = true →
      (msgKindOf (handleHoTTTelemetry sg pg pe s now).hottMsg = msgKindOf s.hottMsg ∨
        (handleHoTTTelemetry sg pg pe s now).hottMsg = none) ∧
      ((handleHoTTTelemetry sg pg pe s now).hottIsSending = true ∨
        (handleHoTTTelemetry sg pg pe s now).hottMsg = none) ∧
      (handleHoTTTelemetry sg pg pe s now).lookingForRequest = s.lookingForRequest ∧
      (handleHoTTTelemetry sg pg pe s now).lastHoTTRequestCheckAt = s.lastHoTTRequestCheckAt ∧
      ((handleHoTTTelemetry sg pg pe s now).rxBuffer = s.rxBuffer ∨
        (handleHoTTTelemetry sg pg pe s now).rxBuffer = [])) := by
  constructor
  · intro s k n h
    unfold hottSendResponse
    rw [h]
    simp
  · intro sg pg pe s now h
    unfold handleHoTTTelemetry
    obtain ⟨hp1, hp2, hp3, _, hp5, hp6, _, _, hp9, _⟩ := dispatcherPrepare_preserves pg pe s now
    have hsend2 : (dispatcherPrepare pg pe s now).hottIsSending = true := by rw [hp1, h]
    rw [dispatcherDetect_sending sg _ now hsend2]
    unfold dispatcherSend
    split_ifs with c1 c2
    · exact ⟨Or.inl (by rw [hp2]), Or.inl hsend2, hp5, hp6, Or.inl hp9⟩
    · exact ⟨Or.inl (by rw [hp2]), Or.inl hsend2, hp5, hp6, Or.inl hp9⟩
    · obtain ⟨hq1, hq2, hq3, hq4, hq5⟩ :=
        hottSendTelemetryData_preserves (dispatcherPrepare pg pe s now)
      by_cases hr : (dispatcherPrepare pg pe s now).hottMsgRemainingBytesToSendCount = 0
      · have hcomp := hottSendTelemetryData_complete _ hsend2 hr
        refine ⟨?_, ?_, ?_, ?_, ?_⟩
        · right
          show ({ hottSendTelemetryData (dispatcherPrepare pg pe s now) with
              serialTimer := now }).hottMsg = none
          rw [hcomp]
        · right
          show ({ hottSendTelemetryData (dispatcherPrepare pg pe s now) with
              serialTimer := now }).hottMsg = none
          rw [hcomp]
        · show (hottSendTelemetryData (dispatcherPrepare pg pe s now)).lookingForRequest = _
          rw [hq4, hp5]
        · show (hottSendTelemetryData (dispatcherPrepare pg pe s now)).lastHoTTRequestCheckAt = _
          rw [hq5, hp6]
        · right
          show ({ hottSendTelemetryData (dispatcherPrepare pg pe s now) with
              serialTimer := now }).rxBuffer = []
          rw [hcomp]
      · obtain ⟨ha1, ha2, ha3⟩ := hottSendTelemetryData_active _ hsend2 hr
        refine ⟨?_, ?_, ?_, ?_, ?_⟩
        · left
          show msgKindOf (hottSendTelemetryData (dispatcherPrepare pg pe s now)).hottMsg = _
          rw [ha1, hp2]
        · left
          show (hottSendTelemetryData (dispatcherPrepare pg pe s now)).hottIsSending = true
          exact ha2
        · show (hottSendTelemetryData (dispatcherPrepare pg pe s now)).lookingForRequest = _
          rw [hq4, hp5]
        · show (hottSendTelemetryData (dispatcherPrepare pg pe s now)).lastHoTTRequestCheckAt = _
          rw [hq5, hp6]
        · left
          show (hottSendTelemetryData (dispatcherPrepare pg pe s now)).rxBuffer = _
          rw [ha3, hp9]

/-- Claim C2 witness: in a concrete mid-send state with a fresh 2-byte
request already waiting in the rx buffer, a scheduling attempt is a
no-op and a dispatcher tick (past the inter-byte delay) leaves the
detector state untouched, does not consume the request bytes and keeps
the GPS send in flight. -/
theorem hott_single_send_in_flight_witness :
    sampleMidSend.hottIsSending = true ∧
    hottSendResponse sampleMidSend MsgKind.eam 4 = sampleMidSend ∧
    ((msgKindOf (handleHoTTTelemetry true id id sampleMidSend 60000).hottMsg =
          msgKindOf sampleMidSend.hottMsg ∨
        (handleHoTTTelemetry true id id sampleMidSend 60000).hottMsg = none) ∧
      ((handleHoTTTelemetry true id id sampleMidSend 60000).hottIsSending = true ∨
        (handleHoTTTelemetry true id id sampleMidSend 60000).hottMsg = none) ∧
      (handleHoTTTelemetry true id id sampleMidSend 60000).lookingForRequest =
        sampleMidSend.lookingForRequest ∧
      (handleHoTTTelemetry true id id sampleMidSend 60000).lastHoTTRequestCheckAt =
        sampleMidSend.lastHoTTRequestCheckAt ∧
      ((handleHoTTTelemetry true id id sampleMidSend 60000).rxBuffer = sampleMidSend.rxBuffer ∨
        (handleHoTTTelemetry true id id sampleMidSend 60000).rxBuffer = [])) :=
  ⟨rfl, hott_single_send_in_flight.1 sampleMidSend MsgKind.eam 4 rfl,
    hott_single_send_in_flight.2 true id id sampleMidSend 60000 rfl⟩

/-! ## Request Detector theorems -/

/-- `processBinaryModeRequest` only ever touches the send cursor and the
remaining-byte count. -/
theorem processBinaryModeRequest_preserves (sg : Bool) (s : HTState) (a : Nat) :
    (processBinaryModeRequest sg s a).lookingForRequest = s.lookingForRequest ∧
    (processBinaryModeRequest sg s a).rxBuffer = s.rxBuffer ∧
    (processBinaryModeRequest sg s a).lastHoTTRequestCheckAt = s.lastHoTTRequestCheckAt ∧
    (processBinaryModeRequest sg s a).hottIsSending = s.hottIsSending := by
  unfold processBinaryModeRequest hottSendGPSResponse hottSendEAMResponse hottSendResponse
  split_ifs <;> exact ⟨rfl, rfl, rfl, rfl⟩

/-- Claim C8: with exactly 2 bytes waiting, the first tick to observe them
only arms the window (recording the time, consuming nothing); a later tick
within 4 ms of arming does nothing; and a tick at least 4 ms after arming
disarms the window and consumes both bytes. -/
theorem hott_request_window_two_phase :
    (∀ (sg : Bool) (s : HTState) (now : Nat),
      s.rxBuffer.length = 2 → s.lookingForRequest = true →
      hottCheckSerialData sg s now =
        { s with lastHoTTRequestCheckAt := now, lookingForRequest := false }) ∧
    (∀ (sg : Bool) (s : HTState) (now : Nat),
      s.rxBuffer.length = 2 → s.lookingForRequest = false →
      wrapSub now s.lastHoTTRequestCheckAt < HOTT_RX_SCHEDULE →
      hottCheckSerialData sg s now = s) ∧
    (∀ (sg : Bool) (s : HTState) (now : Nat),
      s.rxBuffer.length = 2 → s.lookingForRequest = false →
      wrapSub now s.lastHoTTRequestCheckAt ≥ HOTT_RX_SCHEDULE →
      (hottCheckSerialData sg s now).lookingForRequest = true ∧
      (hottCheckSerialData sg s now).rxBuffer = []) := by
  refine ⟨?_, ?_, ?_⟩
  · intro sg s now hlen hlook
    unfold hottCheckSerialData
    rw [hlen, hlook]
    simp
  · intro sg s now hlen hlook htime
    unfold hottCheckSerialData
    rw [hlen, hlook]
    simp only [Nat.reduceMod]
    rw [if_neg (by omega), if_neg (by omega), if_neg (by simp), if_pos htime]
  · intro sg s now hlen hlook htime
    unfold hottCheckSerialData
    rw [hlen, hlook]
    simp only [Nat.reduceMod]
    rw [if_neg (by omega), if_neg (by omega), if_neg (by simp), if_neg (by omega)]
    have hdrop : s.rxBuffer.drop 2 = [] := by
      apply List.eq_nil_of_length_eq_zero
      simp [hlen]
    split_ifs with hid
    · obtain ⟨hq1, hq2, _, _⟩ := processBinaryModeRequest_preserves sg
        { s with lookingForRequest := true, rxBuffer := s.rxBuffer.drop 2 }
        (s.rxBuffer.getD 1 0)
      rw [hq1, hq2]
      exact ⟨rfl, hdrop⟩
    · exact ⟨rfl, hdrop⟩

/-- Claim C8 witness: a concrete walk through all three phases — the
observing tick arms without consuming, a tick 2 ms later does nothing,
and a tick 4 ms after arming disarms and consumes the two bytes. -/
theorem hott_request_window_two_phase_witness :
    (({ sampleArmed with lookingForRequest := true } : HTState).rxBuffer.length = 2 ∧
      hottCheckSerialData true { sampleArmed with lookingForRequest := true } 10000 =
        { sampleArmed with lastHoTTRequestCheckAt := 10000, lookingForRequest := false }) ∧
    (sampleArmed.rxBuffer.length = 2 ∧ sampleArmed.lookingForRequest = false ∧
      wrapSub 12000 sampleArmed.lastHoTTRequestCheckAt < HOTT_RX_SCHEDULE ∧
      hottCheckSerialData true sampleArmed 12000 = sampleArmed) ∧
    (wrapSub 14000 sampleArmed.lastHoTTRequestCheckAt ≥ HOTT_RX_SCHEDULE ∧
      (hottCheckSerialData true sampleArmed 14000).lookingForRequest = true ∧
      (hottCheckSerialData true sampleArmed 14000).rxBuffer = []) :=
  ⟨⟨by decide, hott_request_window_two_phase.1 true
      { sampleArmed with lookingForRequest := true } 10000 (by decide) rfl⟩,
    ⟨by decide, rfl, by decide,
      hott_request_window_two_phase.2.1 true sampleArmed 12000 (by decide) rfl (by decide)⟩,
    ⟨by decide,
      hott_request_window_two_phase.2.2 true sampleArmed 14000 (by decide) rfl (by decide)⟩⟩

/-- Claim C4 counterexample: with exactly one byte waiting and the window
armed, the detector neither discards the byte nor disarms the window — it
returns with the state completely unchanged, contradicting the claim that
any count other than 0 or 2 (including 1) is discarded. -/
theorem hott_one_byte_waiting_not_discarded :
    hottCheckSerialData true { initState with rxBuffer := [128], lookingForRequest := false } 0 =
      { initState with rxBuffer := [128], lookingForRequest := false } ∧
    ({ initState with rxBuffer := [128], lookingForRequest := false } : HTState).rxBuffer ≠ [] ∧
    ({ initState with rxBuffer := [128], lookingForRequest := false } : HTState).lookingForRequest
      = false := by
  refine ⟨by decide, by decide, rfl⟩

/-- Claim C4 (amended): a waiting-byte count (as read into a `uint8_t`,
i.e. mod 256) of 3 or more discards all waiting bytes and disarms the
window, surfacing no error; a count of 0 or 1 leaves the detector state
and the waiting bytes untouched (the detector waits for more data). -/
theorem hott_noise_discard (sg : Bool) (s : HTState) (now : Nat) :
    (3 ≤ s.rxBuffer.length % 256 →
      hottCheckSerialData sg s now = { s with rxBuffer := [], lookingForRequest := true }) ∧
    (s.rxBuffer.length % 256 ≤ 1 → hottCheckSerialData sg s now = s) := by
  constructor
  · intro h
    unfold hottCheckSerialData
    rw [if_neg (by omega), if_pos (by omega)]
    rfl
  · intro h
    unfold hottCheckSerialData
    rw [if_pos h]

/-- Claim C4 witness: three waiting bytes are discarded and the window
disarmed; a single waiting byte is left in place with the state
unchanged. -/
theorem hott_noise_discard_witness :
    (3 ≤ ({ sampleArmed with rxBuffer := [1, 2, 3] } : HTState).rxBuffer.length % 256 ∧
      hottCheckSerialData true { sampleArmed with rxBuffer := [1, 2, 3] } 20000 =
        { sampleArmed with rxBuffer := [], lookingForRequest := true }) ∧
    (({ sampleArmed with rxBuffer := [9] } : HTState).rxBuffer.length % 256 ≤ 1 ∧
      hottCheckSerialData true { sampleArmed with rxBuffer := [9] } 20000 =
        { sampleArmed with rxBuffer := [9] }) :=
  ⟨⟨by decide, (hott_noise_discard true { sampleArmed with rxBuffer := [1, 2, 3] } 20000).1
      (by decide)⟩,
    ⟨by decide, (hott_noise_discard true { sampleArmed with rxBuffer := [9] } 20000).2
      (by decide)⟩⟩

/-- Claim C3 counterexample: a consumed request `[binaryModeId, 0x8A]`
(the GPS address) schedules no GPS send when the GPS sensor is not
enabled: the request bytes are consumed but the cursor stays empty. -/
theorem hott_gps_request_without_sensor :
    sampleArmed.rxBuffer = [HOTT_BINARY_MODE_REQUEST_ID, 0x8A] ∧
    wrapSub 14000 sampleArmed.lastHoTTRequestCheckAt ≥ HOTT_RX_SCHEDULE ∧
    (hottCheckSerialData false sampleArmed 14000).rxBuffer = [] ∧
    (hottCheckSerialData false sampleArmed 14000).hottMsg = none := by
  refine ⟨by decide, by decide, by decide, by decide⟩

/-- Claim C3 (amended): for a consumed 2-byte request whose request id
matches the binary-mode constant, the GPS address `0x8A` schedules exactly
one GPS send — provided the GPS sensor is enabled; with the sensor
disabled it schedules nothing.  The battery address `0x8E` schedules
exactly one Battery/EAM send; any other address, and any non-matching
request id, schedules no send. -/
theorem hott_request_dispatch (sg : Bool) (s : HTState) (now : Nat) (rid addr : Nat)
    (hrx : s.rxBuffer = [rid, addr])
    (hlook : s.lookingForRequest = false)
    (htime : wrapSub now s.lastHoTTRequestCheckAt ≥ HOTT_RX_SCHEDULE)
    (hsend : s.hottIsSending = false) :
    (rid = HOTT_BINARY_MODE_REQUEST_ID → addr = 0x8A → sg = true →
      (hottCheckSerialData sg s now).hottMsg = some (MsgKind.gps, 0) ∧
      (hottCheckSerialData sg s now).hottMsgRemainingBytesToSendCount =
        (s.gpsMsgBytes.length + HOTT_CRC_SIZE) % 256) ∧
    (rid = HOTT_BINARY_MODE_REQUEST_ID → addr = 0x8A → sg = false →
      (hottCheckSerialData sg s now).hottMsg = s.hottMsg) ∧
    (rid = HOTT_BINARY_MODE_REQUEST_ID → addr = 0x8E →
      (hottCheckSerialData sg s now).hottMsg = some (MsgKind.eam, 0) ∧
      (hottCheckSerialData sg s now).hottMsgRemainingBytesToSendCount =
        (s.eamMsgBytes.length + HOTT_CRC_SIZE) % 256) ∧
    (rid = HOTT_BINARY_MODE_REQUEST_ID → addr ≠ 0x8A → addr ≠ 0x8E →
      (hottCheckSerialData sg s now).hottMsg = s.hottMsg) ∧
    (rid ≠ HOTT_BINARY_MODE_REQUEST_ID →
      (hottCheckSerialData sg s now).hottMsg = s.hottMsg) := by
  have hmain : hottCheckSerialData sg s now =
      (if rid = HOTT_BINARY_MODE_REQUEST_ID then
        processBinaryModeRequest sg { s with lookingForRequest := true, rxBuffer := [] } addr
      else
        { s with lookingForRequest := true, rxBuffer := [] }) := by
    unfold hottCheckSerialData
    rw [hrx, hlook]
    rw [if_neg (by simp), if_neg (by simp), if_neg (by simp),
      if_neg (Nat.not_lt.mpr htime)]
    rfl
  refine ⟨?_, ?_, ?_, ?_, ?_⟩
  · intro h1 h2 h3
    subst h1; subst h2; subst h3
    rw [hmain, if_pos rfl]
    unfold processBinaryModeRequest hottSendGPSResponse hottSendResponse
    rw [if_pos rfl, if_pos rfl, if_neg (by simp [hsend])]
    exact ⟨rfl, rfl⟩
  · intro h1 h2 h3
    subst h1; subst h2; subst h3
    rw [hmain, if_pos rfl]
    unfold processBinaryModeRequest
    rw [if_pos rfl, if_neg (by simp)]
  · intro h1 h2
    subst h1; subst h2
    rw [hmain, if_pos rfl]
    unfold processBinaryModeRequest hottSendEAMResponse hottSendResponse
    rw [if_neg (by norm_num), if_pos rfl, if_neg (by simp [hsend])]
    exact ⟨rfl, rfl⟩
  · intro h1 h2 h3
    subst h1
    rw [hmain, if_pos rfl]
    unfold processBinaryModeRequest
    rw [if_neg h2, if_neg h3]
  · intro h1
    rw [hmain, if_neg h1]

/-- Claim C3 witness: with the GPS sensor enabled, consuming the request
`[binaryModeId, 0x8A]` schedules exactly one GPS send (cursor on the GPS
buffer, count = frame length + 1), and consuming `[binaryModeId, 0x8E]`
schedules exactly one Battery/EAM send. -/
theorem hott_request_dispatch_witness :
    sampleArmed.rxBuffer = [HOTT_BINARY_MODE_REQUEST_ID, 0x8A] ∧
    sampleArmed.lookingForRequest = false ∧
    wrapSub 14000 sampleArmed.lastHoTTRequestCheckAt ≥ HOTT_RX_SCHEDULE ∧
    sampleArmed.hottIsSending = false ∧
    ((hottCheckSerialData true sampleArmed 14000).hottMsg = some (MsgKind.gps, 0) ∧
      (hottCheckSerialData true sampleArmed 14000).hottMsgRemainingBytesToSendCount =
        (sampleArmed.gpsMsgBytes.length + HOTT_CRC_SIZE) % 256) ∧
    (({ sampleArmed with rxBuffer := [HOTT_BINARY_MODE_REQUEST_ID, 0x8E] } : HTState).rxBuffer =
      [HOTT_BINARY_MODE_REQUEST_ID, 0x8E]) ∧
    ((hottCheckSerialData true { sampleArmed with rxBuffer := [HOTT_BINARY_MODE_REQUEST_ID, 0x8E] }
        14000).hottMsg = some (MsgKind.eam, 0) ∧
      (hottCheckSerialData true { sampleArmed with rxBuffer := [HOTT_BINARY_MODE_REQUEST_ID, 0x8E] }
        14000).hottMsgRemainingBytesToSendCount =
        (({ sampleArmed with rxBuffer := [HOTT_BINARY_MODE_REQUEST_ID, 0x8E] } :
          HTState).eamMsgBytes.length + HOTT_CRC_SIZE) % 256) :=
  ⟨rfl, rfl, by decide, rfl,
    (hott_request_dispatch true sampleArmed 14000 HOTT_BINARY_MODE_REQUEST_ID 0x8A rfl rfl
      (by decide) rfl).1 rfl rfl rfl,
    rfl,
    (hott_request_dispatch true { sampleArmed with rxBuffer := [HOTT_BINARY_MODE_REQUEST_ID, 0x8E] }
      14000 HOTT_BINARY_MODE_REQUEST_ID 0x8E rfl rfl (by decide) rfl).2.2.1 rfl rfl⟩
